import Mathlib

/-!
Verification of `src/libs/runtime/scripts/package-test-tools.py`, the
test-environment orchestrator of the celerity repository.

The script is embedded shallowly:

* Python string primitives used by the script (`str.strip`, `str.endswith`,
  `str.replace(pat, '')`) are modelled as executable functions on `List Char`.
* The file system observed by the script is a `FS` value: a finite map from
  paths to file data plus a finite map from directory paths to their entries.
  File contents are modelled at the granularity the script observes them:
  a secret file is read verbatim (`FileData`), a queue fixture file is only
  ever passed through `json.load`, so its contents are represented by the
  outcome of that parse (`FileData.jsonObj` / `FileData.malformed`).
* Side effects (docker compose invocations, secret-store calls, queue-service
  calls, the test subprocess) are recorded as a trace of `Ev` events; raised
  Python exceptions are an `Option PyErr` value travelling next to the trace.
* `time.time()` readings are modelled as the elapsed whole-second timestamp
  attached to each log line delivered by `docker logs -f`; the deadline test
  `current_time >= start_time + deadline_seconds` becomes `deadline ≤ t`.
* A `KeyboardInterrupt` is modelled by an optional interrupt point naming the
  lifecycle step at whose start the interrupt is raised.
-/

/-- Does the first character list lead (start) the second one?  Used to model
Python substring scanning. -/
def chLead : List Char → List Char → Bool
  | [], _ => true
  | _ :: _, [] => false
  | p :: ps, c :: cs => p == c && chLead ps cs

/-- Python `str.endswith(pat)`. -/
def pyEndsWith (s pat : String) : Bool :=
  chLead pat.data.reverse s.data.reverse

/-- Drop leading whitespace characters, the workhorse of `pyStrip`. -/
def dropWsLead : List Char → List Char
  | [] => []
  | c :: rest => if c.isWhitespace then dropWsLead rest else c :: rest

/-- Python `str.strip()` with no arguments: remove leading and trailing
whitespace.  (Modelled for the ASCII whitespace characters that occur in
docker log lines; Python additionally strips some exotic Unicode blanks.) -/
def pyStrip (s : String) : String :=
  ⟨(dropWsLead ((dropWsLead s.data).reverse)).reverse⟩

/-- Fuelled scanner for `pyReplaceDel`: delete every non-overlapping
occurrence of `pat`, scanning left to right, exactly as Python
`str.replace(pat, '')` does.  The fuel is the length of the scanned list,
which suffices for any non-empty pattern. -/
def delMatches (pat : List Char) : Nat → List Char → List Char
  | _, [] => []
  | 0, l => l
  | fuel + 1, c :: rest =>
    if chLead pat (c :: rest) then
      delMatches pat fuel (List.drop (pat.length - 1) rest)
    else
      c :: delMatches pat fuel rest

/-- Python `s.replace(pat, '')` for a non-empty pattern: every occurrence of
`pat` in `s` is removed, not merely a trailing one. -/
def pyReplaceDel (pat s : String) : String :=
  ⟨delMatches pat.data s.data.length s.data⟩

/-- Lookup in a Python dict / an `os.listdir`-style directory table, modelled
as an association list over `String` keys. -/
def pyDictGet {α : Type} (k : String) : List (String × α) → Option α
  | [] => none
  | (k2, v) :: rest => if k = k2 then some v else pyDictGet k rest

/-- Contents of a file as the script observes them.  A secret file is read
verbatim, so `text` carries the raw payload; a queue fixture file is only
ever passed through `json.load`, so its contents are represented by the
outcome of that parse: `jsonObj m` is a file whose contents parse as the flat
JSON object `m`, `malformed` is a file on which `json.load` raises
`JSONDecodeError`. -/
inductive FileData where
  | text : String → FileData
  | jsonObj : List (String × String) → FileData
  | malformed : FileData
deriving DecidableEq

/-- Python `json.load` on a `FileData`. -/
def pyJsonLoad : FileData → Option (List (String × String))
  | .jsonObj m => some m
  | _ => none

/-- The file system visible to the script: regular files (checked with
`Path.is_file()` and read with `open`) and directories (checked with
`Path.is_dir()` and listed with `os.listdir`), each keyed by path. -/
structure FS where
  files : List (String × FileData)
  dirs : List (String × List (String × FileData))
deriving DecidableEq

/-- One observable side effect of the script: a docker compose command
(`stop`, `rm -v -f`, `up -d`), a `create_secret` call, a `create_queue`
call, or the run of the cargo test subprocess (carrying its exit code). -/
inductive Ev where
  | stop
  | rm
  | up
  | secretCall : Option String → FileData → Ev
  | queueCall : String → List (String × String) → Ev
  | testRun : Int → Ev
deriving DecidableEq

/-- The Python exceptions the script can raise or propagate. -/
inductive PyErr where
  | fileNotFound
  | jsonDecode
  | clientError
  | localstackNotReady
  | keyboardInterrupt
  | calledProcessError
  | testRunnerFailed : Int → PyErr
deriving DecidableEq

/-- Terminal outcome of the `for line in process.stdout` loop of
`_wait_for_localstack`: the marker matched (`break`), the deadline test fired
(`raise LocalstackNotReady`), or the stream reached end of file and the loop
fell through. -/
inductive WatchOutcome where
  | ready
  | timedOut
  | eofEnd
deriving DecidableEq

/-- Lifecycle step at whose start a `KeyboardInterrupt` is raised, when one
is raised at all. -/
inductive IPoint where
  | duringWatch
  | duringSecrets
  | duringQueues
  | duringTest
deriving DecidableEq

/-- Everything a single invocation of the script can observe: the CLI flag,
whether `docker compose up -d` succeeds, the timed log lines `docker logs -f`
delivers, the process environment, the file system, the set of queue names
the queue service rejects, the test subprocess exit code, and an optional
interrupt point. -/
structure World where
  localdeps : Bool
  upOk : Bool
  logLines : List (Nat × String)
  env : List (String × String)
  fs : FS
  sqsReject : List String
  testExit : Int
  interrupt : Option IPoint
deriving DecidableEq

/-- Replace the log stream of a world, all other observations unchanged. -/
def setLogLines (w : World) (l : List (Nat × String)) : World :=
  ⟨w.localdeps, w.upOk, l, w.env, w.fs, w.sqsReject, w.testExit, w.interrupt⟩

/-- The constant `JSON_EXT = '.json'` from the script. -/
def JSON_EXT : String := ".json"

/-- Model of `_teardown_local_deps`: `docker compose ... stop` followed by
`docker compose ... rm -v -f` (both are assumed to succeed; their
`check=True` failure mode is outside every claim). -/
def tearDownOps : List Ev := [Ev.stop, Ev.rm]

/-- The loop body of `_wait_for_localstack`: for each delivered line, first
compare the current time against `start_time + deadline_seconds` (on failure
`process.kill()` then `raise LocalstackNotReady`), then decode the line and
compare `line_str.strip()` with `'Ready.'` (on match `process.kill()` then
`break`).  If the stream ends without either, the loop falls through and the
function returns with no `kill` call.  The returned `Bool` records whether
`process.kill()` was invoked. -/
def waitForLocalstack (deadlineSeconds : Nat) :
    List (Nat × String) → WatchOutcome × Bool
  | [] => (.eofEnd, false)
  | (t, line) :: rest =>
    if deadlineSeconds ≤ t then (.timedOut, true)
    else if pyStrip line = "Ready." then (.ready, true)
    else waitForLocalstack deadlineSeconds rest

/-- The expression `secrets_file_path = 'secrets.local.json' if context == 'local' else
'secrets.test.json'` from `_populate_secrets`. -/
def secretsFilePath (context : String) : String :=
  if context = "local" then "secrets.local.json" else "secrets.test.json"

/-- Model of `_populate_secrets`: if the context-specific secret file exists, read its
whole contents and issue one `create_secret` call whose name is
`os.environ.get('RUST_COMMON_SECRET_ID')` and whose `SecretString` is the
file contents verbatim; otherwise print and make no call. -/
def populateSecrets (context : String) (env : List (String × String))
    (fs : FS) : List Ev :=
  match pyDictGet (secretsFilePath context) fs.files with
  | some contents =>
    [Ev.secretCall (pyDictGet "RUST_COMMON_SECRET_ID" env) contents]
  | none => []

/-- The `for queue_file in queue_files` loop of `_generate_sqs_queues`: for
each file, `json.load` it (a parse failure raises `JSONDecodeError`) and call
`create_queue` with `QueueName=queue_file.replace('.json', '')` and the
parsed object as `Attributes` (a rejected call raises a client error).
Returns the `create_queue` calls made, with the first raised exception if
any. -/
def createQueues (sqsReject : List String) :
    List (String × FileData) → List Ev × Option PyErr
  | [] => ([], none)
  | (fname, fdata) :: rest =>
    match pyJsonLoad fdata with
    | none => ([], some .jsonDecode)
    | some attrs =>
      let qname := pyReplaceDel JSON_EXT fname
      if qname ∈ sqsReject then ([], some .clientError)
      else
        let r := createQueues sqsReject rest
        (Ev.queueCall qname attrs :: r.1, r.2)

/-- Path computation of `_generate_sqs_queues`: `context_folder = 'tests'
if context == 'test' else 'local'` and the f-string `queues_path`. -/
def queuesPathOf (context : String) : String :=
  (if context = "test" then "tests" else "local") ++ "/__data/sqs/queues"

/-- Model of `_generate_sqs_queues`: when `Path(queues_path).is_dir()` is
false the script prints a skip message but does not return, so the
immediately following `os.listdir(queues_path)` raises `FileNotFoundError`;
otherwise the listing is filtered to names ending in `JSON_EXT` and each
file is provisioned in order by `createQueues`. -/
def generateSqsQueues (context : String) (fs : FS) (sqsReject : List String) :
    List Ev × Option PyErr :=
  match pyDictGet (queuesPathOf context) fs.dirs with
  | none => ([], some .fileNotFound)
  | some entries =>
    createQueues sqsReject (entries.filter fun e => pyEndsWith e.1 JSON_EXT)

/-- Model of `_run_local_deps`: tear down any previous instance, `docker compose up
-d` (a failure raises `CalledProcessError` via `check=True`), wait for the
readiness marker with a 60 second deadline (a timeout raises
`LocalstackNotReady`), then populate secrets and generate queues.  An
interrupt raised at one of the later steps aborts the function with
`KeyboardInterrupt` after the events of the earlier steps. -/
def runLocalDeps (context : String) (w : World) : List Ev × Option PyErr :=
  if w.upOk then
    let base := tearDownOps ++ [Ev.up]
    if w.interrupt = some .duringWatch then (base, some .keyboardInterrupt)
    else if (waitForLocalstack 60 w.logLines).1 = .timedOut then
      (base, some .localstackNotReady)
    else if w.interrupt = some .duringSecrets then
      (base, some .keyboardInterrupt)
    else
      let sev := populateSecrets context w.env w.fs
      if w.interrupt = some .duringQueues then
        (base ++ sev, some .keyboardInterrupt)
      else
        let q := generateSqsQueues context w.fs w.sqsReject
        (base ++ sev ++ q.1, q.2)
  else (tearDownOps ++ [Ev.up], some .calledProcessError)

/-- The dict expression `{**dotenv_values(test_env_file), **env_copy}` from
`_run_integration_tests`: entries of the second dict override entries of the
first, so a key is looked up in the live environment copy first and only
then in the dotenv file values. -/
def childTestEnv (fileVals envCopy : List (String × String))
    (k : String) : Option String :=
  match pyDictGet k envCopy with
  | some v => some v
  | none => pyDictGet k fileVals

/-- Model of `_run_integration_tests`: optionally bring up local dependencies, run
the cargo test subprocess with `check=False`, tear the dependencies down
again when they were requested, and only then raise `TestRunnerFailed` when
the exit code was non-zero. -/
def runIntegrationTests (w : World) : List Ev × Option PyErr :=
  if w.localdeps then
    let r := runLocalDeps "test" w
    match r.2 with
    | some e => (r.1, some e)
    | none =>
      if w.interrupt = some .duringTest then (r.1, some .keyboardInterrupt)
      else
        let evs := r.1 ++ [Ev.testRun w.testExit] ++ tearDownOps
        if w.testExit ≠ 0 then (evs, some (.testRunnerFailed w.testExit))
        else (evs, none)
  else
    if w.interrupt = some .duringTest then ([], some .keyboardInterrupt)
    else
      let evs := [Ev.testRun w.testExit]
      if w.testExit ≠ 0 then (evs, some (.testRunnerFailed w.testExit))
      else (evs, none)

/-- How a whole invocation of the script terminates: a normal return, a
`KeyboardInterrupt` or `LocalstackNotReady` caught (and swallowed) by the
top-level handler, or an exception that propagates uncaught out of
`run_package_test_tools`. -/
inductive RunOutcome where
  | normal
  | handledTimeout
  | handledInterrupt
  | uncaught : PyErr → RunOutcome
deriving DecidableEq

/-- Model of `run_package_test_tools`: run the tests; `except (KeyboardInterrupt,
LocalstackNotReady)` tears local dependencies down when `--localdeps` was
given (and swallows the exception); every other exception propagates. -/
def runPackageTestTools (w : World) : List Ev × RunOutcome :=
  let r := runIntegrationTests w
  match r.2 with
  | none => (r.1, .normal)
  | some .keyboardInterrupt =>
    if w.localdeps then (r.1 ++ tearDownOps, .handledInterrupt)
    else (r.1, .handledInterrupt)
  | some .localstackNotReady =>
    if w.localdeps then (r.1 ++ tearDownOps, .handledTimeout)
    else (r.1, .handledTimeout)
  | some e => (r.1, .uncaught e)

/-- Number of teardown invocations recorded in a trace; every call of
`_teardown_local_deps` contributes exactly one `Ev.stop`. -/
def countStop : List Ev → Nat
  | [] => 0
  | .stop :: rest => countStop rest + 1
  | _ :: rest => countStop rest

/-- The part of a trace after the `docker compose up -d` of bring-up. -/
def afterUp : List Ev → List Ev
  | [] => []
  | .up :: rest => rest
  | _ :: rest => afterUp rest

/-- Teardown invocations that happen after the stack was brought up, i.e.
the cleanup teardowns (the unconditional teardown at the start of
`_run_local_deps` is part of bring-up itself). -/
def cleanupTeardowns (evs : List Ev) : Nat :=
  countStop (afterUp evs)

/-- Timestamps of a delivered log stream never decrease (wall-clock time is
monotone across successive `time.time()` readings). -/
def timesMonotone : List (Nat × String) → Bool
  | a :: b :: rest => decide (a.1 ≤ b.1) && timesMonotone (b :: rest)
  | _ => true

example : pyStrip " Ready. \n" = "Ready." := by decide
example : pyEndsWith "orders.json" ".json" = true := by decide
example : pyEndsWith "orders.txt" ".json" = false := by decide
example : pyReplaceDel ".json" "orders.json" = "orders" := by decide
example : pyReplaceDel ".json" "orders.json.json" = "orders" := by decide
example : pyReplaceDel ".json" "a.jsonb.json" = "ab" := by decide

theorem countStop_append (a b : List Ev) :
    countStop (a ++ b) = countStop a + countStop b := by
  induction a with
  | nil => simp [countStop]
  | cons e rest ih => cases e <;> simp [countStop, ih] <;> omega

theorem countStop_populateSecrets (c : String) (env : List (String × String))
    (fs : FS) : countStop (populateSecrets c env fs) = 0 := by
  unfold populateSecrets
  cases pyDictGet (secretsFilePath c) fs.files <;> rfl

theorem countStop_createQueues (rej : List String)
    (l : List (String × FileData)) : countStop (createQueues rej l).1 = 0 := by
  induction l with
  | nil => rfl
  | cons p rest ih =>
    obtain ⟨fname, fdata⟩ := p
    unfold createQueues
    cases pyJsonLoad fdata with
    | none => rfl
    | some attrs =>
      by_cases hmem : pyReplaceDel JSON_EXT fname ∈ rej
      · simp [hmem, countStop]
      · simp [hmem, countStop, ih]

theorem createQueues_err (rej : List String) (l : List (String × FileData))
    (e : PyErr) (h : (createQueues rej l).2 = some e) :
    e = .jsonDecode ∨ e = .clientError := by
  induction l with
  | nil => simp [createQueues] at h
  | cons p rest ih =>
    obtain ⟨fname, fdata⟩ := p
    unfold createQueues at h
    cases hj : pyJsonLoad fdata with
    | none =>
      rw [hj] at h
      simp at h
      exact Or.inl h.symm
    | some attrs =>
      rw [hj] at h
      by_cases hmem : pyReplaceDel JSON_EXT fname ∈ rej
      · simp [hmem] at h
        exact Or.inr h.symm
      · simp [hmem] at h
        exact ih h

theorem generateSqsQueues_err (c : String) (fs : FS) (rej : List String)
    (e : PyErr) (h : (generateSqsQueues c fs rej).2 = some e) :
    e = .fileNotFound ∨ e = .jsonDecode ∨ e = .clientError := by
  unfold generateSqsQueues at h
  cases hd : pyDictGet (queuesPathOf c) fs.dirs with
  | none =>
    rw [hd] at h
    simp at h
    exact Or.inl h.symm
  | some entries =>
    rw [hd] at h
    exact Or.inr (createQueues_err _ _ _ h)

theorem countStop_generateSqsQueues (c : String) (fs : FS)
    (rej : List String) : countStop (generateSqsQueues c fs rej).1 = 0 := by
  unfold generateSqsQueues
  cases hd : pyDictGet (queuesPathOf c) fs.dirs with
  | none => simp [hd, countStop]
  | some entries => simp [hd, countStop_createQueues]

theorem runLocalDeps_shape (c : String) (w : World) :
    ∃ rest, (runLocalDeps c w).1 = Ev.stop :: Ev.rm :: Ev.up :: rest ∧
      countStop rest = 0 := by
  unfold runLocalDeps
  by_cases hup : w.upOk
  · simp only [hup, if_true]
    by_cases h1 : w.interrupt = some .duringWatch
    · exact ⟨[], by simp [h1, tearDownOps], rfl⟩
    · simp only [h1, if_false]
      by_cases h2 : (waitForLocalstack 60 w.logLines).1 = .timedOut
      · exact ⟨[], by simp [h2, tearDownOps], rfl⟩
      · simp only [h2, if_false]
        by_cases h3 : w.interrupt = some .duringSecrets
        · exact ⟨[], by simp [h3, tearDownOps], rfl⟩
        · simp only [h3, if_false]
          by_cases h4 : w.interrupt = some .duringQueues
          · refine ⟨populateSecrets c w.env w.fs, by simp [h4, tearDownOps], ?_⟩
            exact countStop_populateSecrets _ _ _
          · refine ⟨populateSecrets c w.env w.fs ++
              (generateSqsQueues c w.fs w.sqsReject).1,
              by simp [h4, tearDownOps], ?_⟩
            rw [countStop_append, countStop_populateSecrets,
              countStop_generateSqsQueues]
  · exact ⟨[], by simp [hup, tearDownOps], rfl⟩

theorem runLocalDeps_err (c : String) (w : World) (k : Int) :
    (runLocalDeps c w).2 ≠ some (.testRunnerFailed k) := by
  intro h
  unfold runLocalDeps at h
  by_cases hup : w.upOk
  · simp only [hup, if_true] at h
    by_cases h1 : w.interrupt = some .duringWatch
    · simp [h1] at h
    · simp only [h1, if_false] at h
      by_cases h2 : (waitForLocalstack 60 w.logLines).1 = .timedOut
      · simp [h2] at h
      · simp only [h2, if_false] at h
        by_cases h3 : w.interrupt = some .duringSecrets
        · simp [h3] at h
        · simp only [h3, if_false] at h
          by_cases h4 : w.interrupt = some .duringQueues
          · simp [h4] at h
          · simp only [h4, if_false] at h
            rcases generateSqsQueues_err _ _ _ _ h with h5 | h5 | h5 <;>
              simp at h5
  · simp [hup] at h

theorem afterUp_cons (rest : List Ev) :
    afterUp (Ev.stop :: Ev.rm :: Ev.up :: rest) = rest := rfl

/-- Is an event a fixture-provisioning service call? -/
def isProvision : Ev → Bool
  | .secretCall _ _ => true
  | .queueCall _ _ => true
  | _ => false

/-- Is an event a provisioning service call or the test subprocess run? -/
def isProvisionOrTest : Ev → Bool
  | .secretCall _ _ => true
  | .queueCall _ _ => true
  | .testRun _ => true
  | _ => false

/-- Is an event the test subprocess run? -/
def isTestRun : Ev → Bool
  | .testRun _ => true
  | _ => false

theorem countStop_of_provision (l : List Ev)
    (h : ∀ e ∈ l, isProvision e = true) : countStop l = 0 := by
  induction l with
  | nil => rfl
  | cons e rest ih =>
    have he := h e (List.mem_cons_self _ _)
    have hrest := ih fun q hq => h q (List.mem_cons_of_mem _ hq)
    cases e <;> simp [isProvision] at he <;> simp [countStop, hrest]

theorem isTestRun_of_provision (e : Ev) (h : isProvision e = true) :
    isTestRun e = false := by
  cases e <;> simp [isProvision] at h <;> rfl

theorem mem_populateSecrets_provision (c : String)
    (env : List (String × String)) (fs : FS) :
    ∀ e ∈ populateSecrets c env fs, isProvision e = true := by
  intro e he
  unfold populateSecrets at he
  cases hd : pyDictGet (secretsFilePath c) fs.files with
  | some d =>
    rw [hd] at he
    simp at he
    rw [he]
    rfl
  | none =>
    rw [hd] at he
    simp at he

theorem mem_createQueues_provision (rej : List String)
    (l : List (String × FileData)) :
    ∀ e ∈ (createQueues rej l).1, isProvision e = true := by
  induction l with
  | nil => intro e he; simp [createQueues] at he
  | cons p rest ih =>
    intro e he
    obtain ⟨fname, fdata⟩ := p
    unfold createQueues at he
    cases hj : pyJsonLoad fdata with
    | none => rw [hj] at he; simp at he
    | some attrs =>
      rw [hj] at he
      by_cases hmem : pyReplaceDel JSON_EXT fname ∈ rej
      · simp [hmem] at he
      · simp [hmem] at he
        rcases he with rfl | he2
        · rfl
        · exact ih e he2

theorem mem_generateSqsQueues_provision (c : String) (fs : FS)
    (rej : List String) :
    ∀ e ∈ (generateSqsQueues c fs rej).1, isProvision e = true := by
  intro e he
  unfold generateSqsQueues at he
  cases hd : pyDictGet (queuesPathOf c) fs.dirs with
  | none => rw [hd] at he; simp at he
  | some entries =>
    rw [hd] at he
    exact mem_createQueues_provision _ _ e he

/-- Decomposition of the `_run_local_deps` trace: it always starts with the
pre-teardown and the `up -d` command, and everything after those is a
fixture-provisioning call. -/
theorem runLocalDeps_split (c : String) (w : World) :
    ∃ rest, (runLocalDeps c w).1 = Ev.stop :: Ev.rm :: Ev.up :: rest ∧
      ∀ e ∈ rest, isProvision e = true := by
  unfold runLocalDeps
  by_cases hup : w.upOk
  · simp only [hup, if_true]
    by_cases h1 : w.interrupt = some .duringWatch
    · exact ⟨[], by simp [h1, tearDownOps], by simp⟩
    · simp only [h1, if_false]
      by_cases h2 : (waitForLocalstack 60 w.logLines).1 = .timedOut
      · exact ⟨[], by simp [h2, tearDownOps], by simp⟩
      · simp only [h2, if_false]
        by_cases h3 : w.interrupt = some .duringSecrets
        · exact ⟨[], by simp [h3, tearDownOps], by simp⟩
        · simp only [h3, if_false]
          by_cases h4 : w.interrupt = some .duringQueues
          · exact ⟨populateSecrets c w.env w.fs, by simp [h4, tearDownOps],
              mem_populateSecrets_provision c w.env w.fs⟩
          · refine ⟨populateSecrets c w.env w.fs ++
              (generateSqsQueues c w.fs w.sqsReject).1,
              by simp [h4, tearDownOps], ?_⟩
            intro e he
            rcases List.mem_append.mp he with h5 | h5
            · exact mem_populateSecrets_provision c w.env w.fs e h5
            · exact mem_generateSqsQueues_provision c w.fs w.sqsReject e h5
  · exact ⟨[], by simp [hup, tearDownOps], by simp⟩

theorem cleanupTeardowns_calc (rest extra : List Ev)
    (h : countStop rest = 0) :
    cleanupTeardowns ((Ev.stop :: Ev.rm :: Ev.up :: rest) ++ extra) =
      countStop extra := by
  have hx : (Ev.stop :: Ev.rm :: Ev.up :: rest) ++ extra =
      Ev.stop :: Ev.rm :: Ev.up :: (rest ++ extra) := by simp
  rw [hx]
  unfold cleanupTeardowns
  rw [afterUp_cons, countStop_append, h]
  omega

theorem timesMonotone_rest (a : Nat × String) (l : List (Nat × String))
    (h : timesMonotone (a :: l) = true) :
    timesMonotone l = true ∧ ∀ p ∈ l, a.1 ≤ p.1 := by
  induction l generalizing a with
  | nil => exact ⟨rfl, by simp⟩
  | cons b rest ih =>
    unfold timesMonotone at h
    simp only [Bool.and_eq_true, decide_eq_true_eq] at h
    obtain ⟨hab, hrest⟩ := h
    obtain ⟨-, hall⟩ := ih b hrest
    refine ⟨hrest, ?_⟩
    intro p hp
    rcases List.mem_cons.mp hp with rfl | hp2
    · exact hab
    · exact le_trans hab (hall p hp2)

/-- A log stream whose every line arrives before the deadline and never
matches the marker drives the watch loop to end of file: no timeout is
raised and `process.kill()` is never invoked. -/
theorem waitForLocalstack_eof (d : Nat) (lines : List (Nat × String))
    (hl : ∀ p ∈ lines, p.1 < d)
    (hm : ∀ p ∈ lines, pyStrip p.2 ≠ "Ready.") :
    waitForLocalstack d lines = (.eofEnd, false) := by
  induction lines with
  | nil => rfl
  | cons p rest ih =>
    obtain ⟨t, line⟩ := p
    have hc1 : ¬ d ≤ t :=
      Nat.not_le.mpr (hl (t, line) (List.mem_cons_self _ _))
    have hc2 : pyStrip line ≠ "Ready." :=
      hm (t, line) (List.mem_cons_self _ _)
    unfold waitForLocalstack
    rw [if_neg hc1, if_neg hc2]
    exact ih (fun q hq => hl q (List.mem_cons_of_mem _ hq))
      (fun q hq => hm q (List.mem_cons_of_mem _ hq))

theorem setLogLines_localdeps (w : World) (l : List (Nat × String)) :
    (setLogLines w l).localdeps = w.localdeps := rfl

theorem setLogLines_upOk (w : World) (l : List (Nat × String)) :
    (setLogLines w l).upOk = w.upOk := rfl

theorem setLogLines_logLines (w : World) (l : List (Nat × String)) :
    (setLogLines w l).logLines = l := rfl

theorem setLogLines_env (w : World) (l : List (Nat × String)) :
    (setLogLines w l).env = w.env := rfl

theorem setLogLines_fs (w : World) (l : List (Nat × String)) :
    (setLogLines w l).fs = w.fs := rfl

theorem setLogLines_sqsReject (w : World) (l : List (Nat × String)) :
    (setLogLines w l).sqsReject = w.sqsReject := rfl

theorem setLogLines_testExit (w : World) (l : List (Nat × String)) :
    (setLogLines w l).testExit = w.testExit := rfl

theorem setLogLines_interrupt (w : World) (l : List (Nat × String)) :
    (setLogLines w l).interrupt = w.interrupt := rfl

/-- State of the docker compose dependency stack: `none` when no instance
exists, otherwise an instance with its running flag and the identity of its
volume contents (`volumeGen` changes when volumes are created afresh). -/
structure StackInstance where
  running : Bool
  volumeGen : Nat
deriving DecidableEq

/-- Semantics of `docker compose ... stop`: stops a present instance, keeps its volumes,
and succeeds silently when nothing exists. -/
def composeStop : Option StackInstance → Option StackInstance
  | some i => some ⟨false, i.volumeGen⟩
  | none => none

/-- Semantics of `docker compose ... rm -v -f`: removes containers and volumes,
silently succeeding when nothing exists. -/
def composeRmV : Option StackInstance → Option StackInstance :=
  fun _ => none

/-- Semantics of `docker compose ... up -d`: creates and starts a fresh instance when
none exists; restarts an existing instance, reusing its (possibly stale)
volumes, when one does. -/
def composeUpD (fresh : Nat) : Option StackInstance → Option StackInstance
  | some i => some ⟨true, i.volumeGen⟩
  | none => some ⟨true, fresh⟩

/-- The effect of `_run_local_deps` on the stack state: the unconditional
teardown (stop, then remove with volumes) followed by the detached start,
exactly in the order the script issues the commands. -/
def bringUpState (fresh : Nat) (s : Option StackInstance) :
    Option StackInstance :=
  composeUpD fresh (composeRmV (composeStop s))

/-- C2: the readiness watcher, run on a live (monotonically timestamped) log
stream, signals `Ready` when some line whose stripped text equals the marker
`'Ready.'` arrives strictly before the deadline, and raises the timeout
(`LocalstackNotReady`, here `WatchOutcome.timedOut`) when no line arriving
before the deadline matches the marker and the stream is still delivering a
line once the deadline has elapsed; in both terminal cases the log-tailing
subprocess has been killed (the `Bool` component is `true`) before the
watcher returns or raises. -/
theorem wait_for_localstack_ready_or_timeout (d : Nat)
    (lines : List (Nat × String)) (hmono : timesMonotone lines = true) :
    ((∃ p ∈ lines, p.1 < d ∧ pyStrip p.2 = "Ready.") →
      waitForLocalstack d lines = (.ready, true)) ∧
    ((∀ p ∈ lines, p.1 < d → pyStrip p.2 ≠ "Ready.") →
      (∃ p ∈ lines, d ≤ p.1) →
      waitForLocalstack d lines = (.timedOut, true)) := by
  induction lines with
  | nil =>
    constructor
    · rintro ⟨p, hp, -⟩
      simp at hp
    · rintro - ⟨p, hp, -⟩
      simp at hp
  | cons a rest ih =>
    obtain ⟨hmrest, hle⟩ := timesMonotone_rest a rest hmono
    obtain ⟨ihr, iht⟩ := ih hmrest
    obtain ⟨t, line⟩ := a
    constructor
    · rintro ⟨p, hp, hlt, hmark⟩
      unfold waitForLocalstack
      by_cases hdt : d ≤ t
      · exfalso
        rcases List.mem_cons.mp hp with rfl | hp2
        · have hlt2 : t < d := hlt
          omega
        · have hge : t ≤ p.1 := hle p hp2
          have hlt2 : p.1 < d := hlt
          omega
      · rw [if_neg hdt]
        by_cases hmk : pyStrip line = "Ready."
        · rw [if_pos hmk]
        · rw [if_neg hmk]
          apply ihr
          rcases List.mem_cons.mp hp with rfl | hp2
          · exact absurd hmark hmk
          · exact ⟨p, hp2, hlt, hmark⟩
    · rintro hno ⟨p, hp, hdp⟩
      unfold waitForLocalstack
      by_cases hdt : d ≤ t
      · rw [if_pos hdt]
      · rw [if_neg hdt]
        have hmk : pyStrip line ≠ "Ready." :=
          hno (t, line) (List.mem_cons_self _ _) (Nat.not_le.mp hdt)
        rw [if_neg hmk]
        apply iht
        · intro q hq hqd
          exact hno q (List.mem_cons_of_mem _ hq) hqd
        · rcases List.mem_cons.mp hp with rfl | hp2
          · exfalso
            have : t < d := Nat.not_le.mp hdt
            have hdp2 : d ≤ t := hdp
            omega
          · exact ⟨p, hp2, hdp⟩

/-- C2 witness: a stream whose second line strips to the marker at second 3
yields `Ready` with the subprocess killed, and a markerless stream whose
line at second 61 overruns the 60 second deadline yields the timeout with
the subprocess killed. -/
theorem wait_for_localstack_witness :
    waitForLocalstack 60 [(0, "starting"), (3, " Ready. ")] =
      (.ready, true) ∧
    waitForLocalstack 60 [(0, "a"), (61, "b")] = (.timedOut, true) := by
  constructor
  · exact (wait_for_localstack_ready_or_timeout 60
      [(0, "starting"), (3, " Ready. ")] (by decide)).1
      ⟨(3, " Ready. "), by decide, by decide, by decide⟩
  · exact (wait_for_localstack_ready_or_timeout 60
      [(0, "a"), (61, "b")] (by decide)).2 (by decide)
      ⟨(61, "b"), by decide, by decide⟩

/-- C10: when the tailed log stream reaches end of file before the deadline
elapses and without the stripped marker ever appearing, the readiness wait
returns normally (it does not raise the timeout), the whole run is
indistinguishable from one in which the marker had been seen, and — with
bring-up succeeding and no interrupt — the run proceeds to the provisioning
steps after the watch. -/
theorem watch_eof_returns_normally (w : World)
    (hl : ∀ p ∈ w.logLines, p.1 < 60)
    (hm : ∀ p ∈ w.logLines, pyStrip p.2 ≠ "Ready.") :
    (waitForLocalstack 60 w.logLines).1 ≠ .timedOut ∧
    runPackageTestTools w =
      runPackageTestTools (setLogLines w [(0, "Ready.")]) ∧
    (w.upOk = true → w.interrupt = none →
      (runLocalDeps "test" w).1 =
        [Ev.stop, Ev.rm, Ev.up] ++ populateSecrets "test" w.env w.fs ++
          (generateSqsQueues "test" w.fs w.sqsReject).1) := by
  have heof := waitForLocalstack_eof 60 w.logLines hl hm
  have hR : waitForLocalstack 60 [(0, "Ready.")] = (.ready, true) := by
    decide
  have hrld : ∀ c, runLocalDeps c (setLogLines w [(0, "Ready.")]) =
      runLocalDeps c w := by
    intro c
    unfold runLocalDeps
    rw [setLogLines_upOk, setLogLines_interrupt, setLogLines_logLines,
      setLogLines_env, setLogLines_fs, setLogLines_sqsReject]
    rw [heof, hR]
    simp
  have hint : runIntegrationTests (setLogLines w [(0, "Ready.")]) =
      runIntegrationTests w := by
    unfold runIntegrationTests
    rw [setLogLines_localdeps, setLogLines_interrupt, setLogLines_testExit,
      hrld "test"]
  refine ⟨by rw [heof]; decide, ?_, ?_⟩
  · unfold runPackageTestTools
    rw [setLogLines_localdeps, hint]
  · intro hup hint0
    unfold runLocalDeps
    rw [hup, heof, hint0]
    simp [tearDownOps]

/-- C10 witness: a concrete run whose log stream ends at second 1 without
the marker behaves exactly like the marker run and still reaches both
provisioning steps. -/
theorem watch_eof_witness :
    (waitForLocalstack 60 [(1, "starting localstack")]).1 ≠ .timedOut ∧
    runPackageTestTools
        ⟨true, true, [(1, "starting localstack")],
          [("RUST_COMMON_SECRET_ID", "sid")],
          ⟨[("secrets.test.json", FileData.text "payload")],
            [("tests/__data/sqs/queues",
              [("orders.json", FileData.jsonObj [("a", "1")])])]⟩,
          [], 0, none⟩ =
      runPackageTestTools
        (setLogLines
          ⟨true, true, [(1, "starting localstack")],
            [("RUST_COMMON_SECRET_ID", "sid")],
            ⟨[("secrets.test.json", FileData.text "payload")],
              [("tests/__data/sqs/queues",
                [("orders.json", FileData.jsonObj [("a", "1")])])]⟩,
            [], 0, none⟩ [(0, "Ready.")]) := by
  constructor
  · exact (watch_eof_returns_normally
      ⟨true, true, [(1, "starting localstack")],
        [("RUST_COMMON_SECRET_ID", "sid")],
        ⟨[("secrets.test.json", FileData.text "payload")],
          [("tests/__data/sqs/queues",
            [("orders.json", FileData.jsonObj [("a", "1")])])]⟩,
        [], 0, none⟩ (by decide) (by decide)).1
  · exact (watch_eof_returns_normally
      ⟨true, true, [(1, "starting localstack")],
        [("RUST_COMMON_SECRET_ID", "sid")],
        ⟨[("secrets.test.json", FileData.text "payload")],
          [("tests/__data/sqs/queues",
            [("orders.json", FileData.jsonObj [("a", "1")])])]⟩,
        [], 0, none⟩ (by decide) (by decide)).2.1

/-- C9: every bring-up first issues the teardown commands (stop, then remove
with volumes) and only then the detached start — the first three commands of
the `_run_local_deps` trace, in order — and on the stack-state semantics a
bring-up from any prior state yields a fresh running instance, so two
consecutive bring-ups produce exactly the state of the second one alone. -/
theorem bring_up_teardown_first_idempotent (c : String) (w : World)
    (s : Option StackInstance) (f1 f2 : Nat) :
    (runLocalDeps c w).1.take 3 = [Ev.stop, Ev.rm, Ev.up] ∧
    bringUpState f1 s = some ⟨true, f1⟩ ∧
    bringUpState f2 (bringUpState f1 s) = bringUpState f2 s := by
  refine ⟨?_, ?_, ?_⟩
  · obtain ⟨rest, hsh, -⟩ := runLocalDeps_split c w
    rw [hsh]
    rfl
  · cases s <;> rfl
  · cases s <;> rfl

/-- C3: with the context-specific queue-definition directory absent, the
queue-provisioning step makes no queue-creation call but — contrary to the
claim and to its own log message "No sqs queues fixture directory. moving on
..." — it does raise: the `is_dir` guard has no early return, so
`os.listdir(queues_path)` runs on the missing path and raises
`FileNotFoundError`. -/
theorem missing_queue_dir_raises :
    generateSqsQueues "test" ⟨[], []⟩ [] =
      ([], some PyErr.fileNotFound) := rfl

/-- C7: a variable defined both in the dotenv file values and in the live
process environment copy is seen by the child test process with the live
environment's value; file values never shadow it. -/
theorem live_env_not_shadowed (fileVals envCopy : List (String × String))
    (k v : String) (hlive : pyDictGet k envCopy = some v)
    (hfile : (pyDictGet k fileVals).isSome = true) :
    childTestEnv fileVals envCopy k = some v := by
  unfold childTestEnv
  rw [hlive]

/-- C7 witness: with the base file defining `FOO=bar` and the live
environment defining `FOO=baz`, the child observes `FOO=baz`. -/
theorem live_env_not_shadowed_witness :
    childTestEnv [("FOO", "bar")] [("FOO", "baz")] "FOO" = some "baz" :=
  live_env_not_shadowed [("FOO", "bar")] [("FOO", "baz")] "FOO" "baz"
    (by decide) (by decide)

/-- C8: when the context-specific secret file exists its entire contents are
submitted verbatim as one `create_secret` call under the configured secret
identifier (`RUST_COMMON_SECRET_ID` from the environment), and when it does
not exist no secret-store call is made and nothing is raised
(`populateSecrets` is total and returns the empty call list). -/
theorem populate_secrets_spec (context : String)
    (env : List (String × String)) (fs : FS) :
    (∀ d, pyDictGet (secretsFilePath context) fs.files = some d →
      populateSecrets context env fs =
        [Ev.secretCall (pyDictGet "RUST_COMMON_SECRET_ID" env) d]) ∧
    (pyDictGet (secretsFilePath context) fs.files = none →
      populateSecrets context env fs = []) := by
  constructor
  · intro d hd
    unfold populateSecrets
    rw [hd]
  · intro hd
    unfold populateSecrets
    rw [hd]

/-- C8 witness: a present `secrets.test.json` produces exactly one secret
submission carrying its contents verbatim, and an absent one produces no
call. -/
theorem populate_secrets_witness :
    populateSecrets "test" [("RUST_COMMON_SECRET_ID", "sid")]
        ⟨[("secrets.test.json", FileData.text "payload")], []⟩ =
      [Ev.secretCall (some "sid") (FileData.text "payload")] ∧
    populateSecrets "test" [] ⟨[], []⟩ = [] := by
  constructor
  · exact (populate_secrets_spec "test" [("RUST_COMMON_SECRET_ID", "sid")]
      ⟨[("secrets.test.json", FileData.text "payload")], []⟩).1
      (FileData.text "payload") (by decide)
  · exact (populate_secrets_spec "test" [] ⟨[], []⟩).2 (by decide)

/-- The queue name the spec's words prescribe, stated for comparison with
the script: "the file name with the extension stripped", i.e. one trailing
`.json` removed. -/
def specQueueName (fname : String) : String :=
  if pyEndsWith fname JSON_EXT then
    ⟨fname.data.take (fname.data.length - JSON_EXT.data.length)⟩
  else fname

theorem createQueues_ok (rej : List String) (l : List (String × FileData))
    (hok : ∀ p ∈ l, (pyJsonLoad p.2).isSome = true ∧
      pyReplaceDel JSON_EXT p.1 ∉ rej) :
    createQueues rej l =
      (l.map fun p => Ev.queueCall (pyReplaceDel JSON_EXT p.1)
        ((pyJsonLoad p.2).getD []), none) := by
  induction l with
  | nil => rfl
  | cons p rest ih =>
    obtain ⟨hsome, hrej⟩ := hok p (List.mem_cons_self _ _)
    have ihr := ih fun q hq => hok q (List.mem_cons_of_mem _ hq)
    obtain ⟨fname, fdata⟩ := p
    obtain ⟨attrs, hattrs⟩ := Option.isSome_iff_exists.mp hsome
    unfold createQueues
    rw [hattrs]
    simp only [if_neg hrej, ihr]
    simp [hattrs]

/-- C6 (amended): for every file set in the queue-definition directory in
which each `.json`-named file parses and is accepted by the queue service,
exactly one queue-creation call is made per file whose name ends in `.json`
(and none for other files), in directory order, where each call's queue name
is the file name with every occurrence of the string `.json` removed (Python
`str.replace`, not merely the trailing extension) and its attribute set is
exactly the mapping parsed from that file's JSON contents. -/
theorem generate_queues_per_file (fs : FS) (rej : List String)
    (entries : List (String × FileData))
    (hdir : pyDictGet (queuesPathOf "test") fs.dirs = some entries)
    (hok : ∀ p ∈ entries, pyEndsWith p.1 JSON_EXT = true →
      (pyJsonLoad p.2).isSome = true ∧ pyReplaceDel JSON_EXT p.1 ∉ rej) :
    generateSqsQueues "test" fs rej =
      ((entries.filter fun p => pyEndsWith p.1 JSON_EXT).map
        fun p => Ev.queueCall (pyReplaceDel JSON_EXT p.1)
          ((pyJsonLoad p.2).getD []), none) := by
  unfold generateSqsQueues
  rw [hdir]
  apply createQueues_ok
  intro p hp
  rw [List.mem_filter] at hp
  exact hok p hp.1 hp.2

/-- C6 counterexample: the file `orders.json.json` carries the recognized
extension, but the script names its queue `orders` — `str.replace` deletes
every occurrence of `.json` — whereas the file name with the extension
stripped is `orders.json`. -/
theorem queue_name_not_extension_stripped :
    (generateSqsQueues "test"
        ⟨[], [("tests/__data/sqs/queues",
          [("orders.json.json", FileData.jsonObj [("a", "1")])])]⟩ []).1 =
      [Ev.queueCall "orders" [("a", "1")]] ∧
    specQueueName "orders.json.json" = "orders.json" ∧
    ("orders" : String) ≠ "orders.json" := by
  refine ⟨?_, ?_, ?_⟩ <;> decide

/-- C6 witness: the spec's own example — `orders.json` holding the object
`a ↦ 1` and `payments.json` holding `b ↦ 2`, plus one non-fixture file —
yields exactly the two queue-creation calls `orders` and `payments` with
their respective attribute mappings, and no error. -/
theorem generate_queues_per_file_witness :
    generateSqsQueues "test"
        ⟨[], [("tests/__data/sqs/queues",
          [("orders.json", FileData.jsonObj [("a", "1")]),
           ("payments.json", FileData.jsonObj [("b", "2")]),
           ("notes.txt", FileData.text "hi")])]⟩ [] =
      ([Ev.queueCall "orders" [("a", "1")],
        Ev.queueCall "payments" [("b", "2")]], none) := by
  have h := generate_queues_per_file
    ⟨[], [("tests/__data/sqs/queues",
      [("orders.json", FileData.jsonObj [("a", "1")]),
       ("payments.json", FileData.jsonObj [("b", "2")]),
       ("notes.txt", FileData.text "hi")])]⟩ []
    [("orders.json", FileData.jsonObj [("a", "1")]),
     ("payments.json", FileData.jsonObj [("b", "2")]),
     ("notes.txt", FileData.text "hi")] (by decide) (by decide)
  rw [h]
  decide

/-- C5: in every run in which the readiness watcher actually runs and times
out (bring-up requested and successful, no interrupt pre-empting the watch,
watch outcome `timedOut`), the run terminates through the handled-timeout
path and its trace contains no secret-provisioning call, no
queue-provisioning call, and no test execution. -/
theorem timeout_skips_provisioning_and_tests (w : World)
    (h1 : w.localdeps = true) (h2 : w.upOk = true)
    (h3 : w.interrupt ≠ some IPoint.duringWatch)
    (h4 : (waitForLocalstack 60 w.logLines).1 = .timedOut) :
    (runPackageTestTools w).2 = .handledTimeout ∧
    ∀ e ∈ (runPackageTestTools w).1, isProvisionOrTest e = false := by
  have hrld : runLocalDeps "test" w =
      (tearDownOps ++ [Ev.up], some PyErr.localstackNotReady) := by
    unfold runLocalDeps
    rw [h2, if_pos rfl, if_neg h3, if_pos h4]
  have hint : runIntegrationTests w =
      (tearDownOps ++ [Ev.up], some PyErr.localstackNotReady) := by
    unfold runIntegrationTests
    rw [h1, if_pos rfl, hrld]
  have hrun : runPackageTestTools w =
      ((tearDownOps ++ [Ev.up]) ++ tearDownOps, RunOutcome.handledTimeout) := by
    unfold runPackageTestTools
    rw [hint, h1]
    rfl
  rw [hrun]
  refine ⟨rfl, ?_⟩
  have hall : ∀ e ∈ ([Ev.stop, Ev.rm, Ev.up, Ev.stop, Ev.rm] : List Ev),
      isProvisionOrTest e = false := by decide
  exact hall

/-- C5 witness: a run whose only log line arrives at the 60 second deadline
times out and its trace performs no provisioning and no test execution. -/
theorem timeout_skips_witness :
    (runPackageTestTools ⟨true, true, [(60, "x")], [], ⟨[], []⟩, [],
      0, none⟩).2 = .handledTimeout ∧
    ∀ e ∈ (runPackageTestTools ⟨true, true, [(60, "x")], [], ⟨[], []⟩, [],
      0, none⟩).1, isProvisionOrTest e = false :=
  timeout_skips_provisioning_and_tests
    ⟨true, true, [(60, "x")], [], ⟨[], []⟩, [], 0, none⟩
    rfl rfl (by decide) (by decide)

theorem runIntegrationTests_cases (w : World) (h : w.localdeps = true) :
    (∃ e, (runLocalDeps "test" w).2 = some e ∧
      runIntegrationTests w = ((runLocalDeps "test" w).1, some e)) ∨
    ((runLocalDeps "test" w).2 = none ∧
      ((w.interrupt = some IPoint.duringTest ∧
        runIntegrationTests w =
          ((runLocalDeps "test" w).1, some PyErr.keyboardInterrupt)) ∨
       (w.interrupt ≠ some IPoint.duringTest ∧
        runIntegrationTests w =
          ((runLocalDeps "test" w).1 ++ [Ev.testRun w.testExit] ++
            tearDownOps,
           if w.testExit = 0 then none
           else some (PyErr.testRunnerFailed w.testExit))))) := by
  cases herr : (runLocalDeps "test" w).2 with
  | some e =>
    refine Or.inl ⟨e, rfl, ?_⟩
    unfold runIntegrationTests
    rw [h]
    simp only [if_true]
    rw [herr]
  | none =>
    refine Or.inr ⟨rfl, ?_⟩
    by_cases hit : w.interrupt = some IPoint.duringTest
    · refine Or.inl ⟨hit, ?_⟩
      unfold runIntegrationTests
      rw [h]
      simp only [if_true]
      rw [herr, hit]
      simp
    · refine Or.inr ⟨hit, ?_⟩
      unfold runIntegrationTests
      rw [h]
      simp only [if_true]
      rw [herr]
      simp only [hit, if_false]
      by_cases hz : w.testExit = 0
      · simp [hz]
      · simp [hz]

theorem runPackageTestTools_of_none (w : World) (tr : List Ev)
    (hint : runIntegrationTests w = (tr, none)) :
    runPackageTestTools w = (tr, .normal) := by
  unfold runPackageTestTools
  rw [hint]

theorem runPackageTestTools_of_kb (w : World) (tr : List Ev)
    (h : w.localdeps = true)
    (hint : runIntegrationTests w = (tr, some PyErr.keyboardInterrupt)) :
    runPackageTestTools w = (tr ++ tearDownOps, .handledInterrupt) := by
  unfold runPackageTestTools
  rw [hint, h]
  simp

theorem runPackageTestTools_of_lnr (w : World) (tr : List Ev)
    (h : w.localdeps = true)
    (hint : runIntegrationTests w = (tr, some PyErr.localstackNotReady)) :
    runPackageTestTools w = (tr ++ tearDownOps, .handledTimeout) := by
  unfold runPackageTestTools
  rw [hint, h]
  simp

theorem runPackageTestTools_of_other (w : World) (tr : List Ev) (e : PyErr)
    (hkb : e ≠ PyErr.keyboardInterrupt) (hlnr : e ≠ PyErr.localstackNotReady)
    (hint : runIntegrationTests w = (tr, some e)) :
    runPackageTestTools w = (tr, .uncaught e) := by
  unfold runPackageTestTools
  rw [hint]
  cases e <;>
    first
      | rfl
      | exact absurd rfl hkb
      | exact absurd rfl hlnr

/-- C1 (amended): with dependency bring-up requested, the cleanup teardown
(the teardown call after the stack was brought up) happens exactly once on
the normal-success, readiness-timeout, test-runner-failure and user-interrupt
terminating paths; the infrastructure-failure path is excluded, because
there the `CalledProcessError` escapes the `except (KeyboardInterrupt,
LocalstackNotReady)` handler and no teardown follows the failed bring-up. -/
theorem teardown_once_on_handled_paths (w : World) (h : w.localdeps = true)
    (hout : (runPackageTestTools w).2 = .normal ∨
      (runPackageTestTools w).2 = .handledTimeout ∨
      (runPackageTestTools w).2 = .handledInterrupt ∨
      ∃ k, (runPackageTestTools w).2 = .uncaught (.testRunnerFailed k)) :
    cleanupTeardowns (runPackageTestTools w).1 = 1 := by
  obtain ⟨rest, hsh, hprov⟩ := runLocalDeps_split "test" w
  have hcnt : countStop rest = 0 := countStop_of_provision rest hprov
  rcases runIntegrationTests_cases w h with ⟨e, herr, hint⟩ | ⟨-, hcase⟩
  · cases e with
    | keyboardInterrupt =>
      rw [runPackageTestTools_of_kb w _ h hint, hsh,
        cleanupTeardowns_calc rest tearDownOps hcnt]
      rfl
    | localstackNotReady =>
      rw [runPackageTestTools_of_lnr w _ h hint, hsh,
        cleanupTeardowns_calc rest tearDownOps hcnt]
      rfl
    | testRunnerFailed k => exact absurd herr (runLocalDeps_err "test" w k)
    | fileNotFound =>
      rw [runPackageTestTools_of_other w _ _ (by simp) (by simp) hint] at hout
      simp at hout
    | jsonDecode =>
      rw [runPackageTestTools_of_other w _ _ (by simp) (by simp) hint] at hout
      simp at hout
    | clientError =>
      rw [runPackageTestTools_of_other w _ _ (by simp) (by simp) hint] at hout
      simp at hout
    | calledProcessError =>
      rw [runPackageTestTools_of_other w _ _ (by simp) (by simp) hint] at hout
      simp at hout
  · rcases hcase with ⟨-, hint⟩ | ⟨-, hint⟩
    · rw [runPackageTestTools_of_kb w _ h hint, hsh,
        cleanupTeardowns_calc rest tearDownOps hcnt]
      rfl
    · by_cases hz : w.testExit = 0
      · rw [if_pos hz] at hint
        rw [runPackageTestTools_of_none w _ hint, hsh, List.append_assoc,
          cleanupTeardowns_calc rest _ hcnt]
        rfl
      · rw [if_neg hz] at hint
        rw [runPackageTestTools_of_other w _ _ (by simp) (by simp) hint,
          hsh, List.append_assoc, cleanupTeardowns_calc rest _ hcnt]
        rfl

/-- C1 counterexample: when `docker compose up -d` itself fails
(infrastructure failure during stack bring-up), the `CalledProcessError`
propagates uncaught and no teardown at all follows the failed bring-up, so
teardown is not invoked exactly once on that terminating path. -/
theorem infra_failure_no_teardown :
    (runPackageTestTools ⟨true, false, [], [], ⟨[], []⟩, [], 0, none⟩).2 =
      .uncaught .calledProcessError ∧
    cleanupTeardowns
      (runPackageTestTools ⟨true, false, [], [], ⟨[], []⟩, [], 0,
        none⟩).1 = 0 := by
  constructor <;> rfl

/-- C1 witness: a successful run (marker at second 3, empty queue directory
present, tests exit 0) performs the cleanup teardown exactly once. -/
theorem teardown_once_witness :
    cleanupTeardowns
      (runPackageTestTools ⟨true, true, [(3, "Ready.")], [],
        ⟨[], [("tests/__data/sqs/queues", [])]⟩, [], 0, none⟩).1 = 1 :=
  teardown_once_on_handled_paths
    ⟨true, true, [(3, "Ready.")], [],
      ⟨[], [("tests/__data/sqs/queues", [])]⟩, [], 0, none⟩
    rfl (Or.inl (by decide))

theorem cleanupTeardowns_noextra (rest : List Ev) :
    cleanupTeardowns (Ev.stop :: Ev.rm :: Ev.up :: rest) = countStop rest := by
  unfold cleanupTeardowns
  rw [afterUp_cons]

theorem uncaught_fixture_shape (w : World) (rest : List Ev)
    (hsh : (runLocalDeps "test" w).1 = Ev.stop :: Ev.rm :: Ev.up :: rest)
    (hprov : ∀ e ∈ rest, isProvision e = true) :
    cleanupTeardowns (runLocalDeps "test" w).1 = 0 ∧
    ∀ ev ∈ (runLocalDeps "test" w).1, isTestRun ev = false := by
  rw [hsh]
  constructor
  · rw [cleanupTeardowns_noextra]
    exact countStop_of_provision rest hprov
  · intro ev hev
    rcases List.mem_cons.mp hev with rfl | hev
    · rfl
    rcases List.mem_cons.mp hev with rfl | hev
    · rfl
    rcases List.mem_cons.mp hev with rfl | hev
    · rfl
    exact isTestRun_of_provision ev (hprov ev hev)

/-- C4 (amended): a present queue fixture file that fails to parse or fails
submission makes the whole run abort fatally — the error propagates as the
run's outcome, the fixture is not skipped and not retried, and the test
command never executes — but the failure is surfaced *without* any stack
teardown having been performed after bring-up: `JSONDecodeError` and the
queue-service client error escape the `except (KeyboardInterrupt,
LocalstackNotReady)` handler. -/
theorem fixture_failure_aborts_without_teardown (w : World)
    (h : w.localdeps = true) (e : PyErr)
    (he : (runPackageTestTools w).2 = .uncaught e)
    (hfix : e = PyErr.jsonDecode ∨ e = PyErr.clientError) :
    cleanupTeardowns (runPackageTestTools w).1 = 0 ∧
    ∀ ev ∈ (runPackageTestTools w).1, isTestRun ev = false := by
  obtain ⟨rest, hsh, hprov⟩ := runLocalDeps_split "test" w
  rcases runIntegrationTests_cases w h with ⟨e2, herr, hint⟩ | ⟨-, hcase⟩
  · cases e2 with
    | keyboardInterrupt =>
      rw [runPackageTestTools_of_kb w _ h hint] at he
      simp at he
    | localstackNotReady =>
      rw [runPackageTestTools_of_lnr w _ h hint] at he
      simp at he
    | testRunnerFailed k => exact absurd herr (runLocalDeps_err "test" w k)
    | fileNotFound =>
      rw [runPackageTestTools_of_other w _ _ (by simp) (by simp) hint]
      exact uncaught_fixture_shape w rest hsh hprov
    | jsonDecode =>
      rw [runPackageTestTools_of_other w _ _ (by simp) (by simp) hint]
      exact uncaught_fixture_shape w rest hsh hprov
    | clientError =>
      rw [runPackageTestTools_of_other w _ _ (by simp) (by simp) hint]
      exact uncaught_fixture_shape w rest hsh hprov
    | calledProcessError =>
      rw [runPackageTestTools_of_other w _ _ (by simp) (by simp) hint] at he
      simp at he
      rcases hfix with rfl | rfl <;> simp at he
  · rcases hcase with ⟨-, hint⟩ | ⟨-, hint⟩
    · rw [runPackageTestTools_of_kb w _ h hint] at he
      simp at he
    · by_cases hz : w.testExit = 0
      · rw [if_pos hz] at hint
        rw [runPackageTestTools_of_none w _ hint] at he
        simp at he
      · rw [if_neg hz] at hint
        rw [runPackageTestTools_of_other w _ _ (by simp) (by simp) hint]
          at he
        rcases hfix with rfl | rfl <;> simp at he

/-- C4 counterexample: with a malformed queue fixture present (and bring-up
otherwise succeeding), the run does abort fatally with the parse error, but
no teardown follows the bring-up — the failure is surfaced without stack
teardown having completed, contrary to the claim. -/
theorem malformed_fixture_no_teardown_before_surface :
    (runPackageTestTools ⟨true, true, [(0, "Ready.")], [],
        ⟨[], [("tests/__data/sqs/queues",
          [("bad.json", FileData.malformed)])]⟩, [], 0, none⟩).2 =
      .uncaught .jsonDecode ∧
    cleanupTeardowns
      (runPackageTestTools ⟨true, true, [(0, "Ready.")], [],
        ⟨[], [("tests/__data/sqs/queues",
          [("bad.json", FileData.malformed)])]⟩, [], 0, none⟩).1 = 0 := by
  constructor <;> rfl

/-- C4 witness: the amended claim applied to the malformed-fixture run — the
run aborts with no cleanup teardown and no test execution. -/
theorem fixture_failure_witness :
    cleanupTeardowns
      (runPackageTestTools ⟨true, true, [(0, "Ready.")], [],
        ⟨[], [("tests/__data/sqs/queues",
          [("bad.json", FileData.malformed)])]⟩, [], 0, none⟩).1 = 0 ∧
    ∀ ev ∈ (runPackageTestTools ⟨true, true, [(0, "Ready.")], [],
        ⟨[], [("tests/__data/sqs/queues",
          [("bad.json", FileData.malformed)])]⟩, [], 0, none⟩).1,
      isTestRun ev = false :=
  fixture_failure_aborts_without_teardown
    ⟨true, true, [(0, "Ready.")], [],
      ⟨[], [("tests/__data/sqs/queues",
        [("bad.json", FileData.malformed)])]⟩, [], 0, none⟩
    rfl PyErr.jsonDecode (by decide) (Or.inl rfl)
